import Mathlib

/-!
Verification of the user-ranking service (trending / sort / search / register
endpoints) against its specification.

The JavaScript handlers are shallowly embedded: JS numbers are modelled as `ℚ`,
possibly-absent record fields as `Option`, and `Array.prototype.sort` (stable
since ES2019) as a stable insertion sort driven by the numeric comparator.
`Math.pow` and `Math.log10` are modelled as fields of an explicit `JsMath`
structure; theorems either quantify over it or instantiate it only on paths
that never consult it (or consult it at arguments where the IEEE result is
exact, such as `Math.log10 1 = 0`).  The display-string fields `joined` /
`active` of the sort endpoint (produced by `timeAgo`, which reads the wall
clock) and the Firebase plumbing are not modelled.
-/

/-! ## JS primitives -/

/-- JS truthiness of a possibly-absent number: `undefined`, `NaN` (not
modelled) and `0` are falsy. -/
def numTruthy (o : Option ℚ) : Bool :=
  match o with
  | some q => q ≠ 0
  | none => false

/-- `a || d` for a possibly-absent number `a`. -/
def numOr (o : Option ℚ) (d : ℚ) : ℚ :=
  if numTruthy o then o.getD 0 else d

/-- JS truthiness of a possibly-absent string: `undefined` and `""` are falsy. -/
def strTruthy (o : Option String) : Bool :=
  match o with
  | some s => s ≠ ""
  | none => false

/-- `a || d` for a possibly-absent string. -/
def strOr (o : Option String) (d : String) : String :=
  if strTruthy o then o.getD "" else d

/-- Numeric value of a decimal digit character. -/
def digitVal (c : Char) : ℕ := c.toNat - 48

/-- Value of a list of decimal digit characters. -/
def digitsVal (cs : List Char) : ℕ :=
  cs.foldl (fun acc c => acc * 10 + digitVal c) 0

/-- Model of JS `parseInt(s)` (radix 10): skip leading whitespace, optional
sign, then the longest run of leading digits; `none` models `NaN` (no digits). -/
def parseIntJS (s : String) : Option Int :=
  let cs := s.toList.dropWhile Char.isWhitespace
  match cs with
  | '-' :: rest =>
    let ds := rest.takeWhile Char.isDigit
    if ds.isEmpty then none else some (-(digitsVal ds : Int))
  | '+' :: rest =>
    let ds := rest.takeWhile Char.isDigit
    if ds.isEmpty then none else some (digitsVal ds : Int)
  | _ =>
    let ds := cs.takeWhile Char.isDigit
    if ds.isEmpty then none else some (digitsVal ds : Int)

/-- `parseInt(s) || d` : the default replaces both `NaN` and `0`. -/
def parseIntOr (s : String) (d : Int) : Int :=
  match parseIntJS s with
  | none => d
  | some v => if v = 0 then d else v

/-- Model of `arr.slice(0, e)` where `e : Option Int` is a parsed limit
(`none` models `NaN`, which `slice` converts to `0`; a negative end counts
from the end of the array). -/
def jsSliceEnd (l : List α) : Option Int → List α
  | none => []
  | some e => if e < 0 then l.take ((l.length : Int) + e).toNat else l.take e.toNat

/-- Model of `parseFloat(q.toFixed(4))`: round to 4 decimal places.  Ties are
rounded half-up; every concrete value in this file is an exact 4-decimal
number, so the tie-breaking mode is never exercised. -/
def round4 (q : ℚ) : ℚ := (⌊q * 10000 + 1 / 2⌋ : ℚ) / 10000

/-- Lowercasing of a JS string, as a character list. -/
def jsLower (s : String) : List Char := s.toList.map Char.toLower

/-- Lowercasing of a JS string, as a string (for `username.toLowerCase()`). -/
def jsLowerStr (s : String) : String := ⟨s.toList.map Char.toLower⟩

/-- Model of `hay.includes(needle)` on character lists. -/
def listContains (hay needle : List Char) : Bool :=
  hay.tails.any (needle.isPrefixOf ·)

/-- Model of `s.trim()` as a character list. -/
def listTrim (cs : List Char) : List Char :=
  ((cs.dropWhile Char.isWhitespace).reverse.dropWhile Char.isWhitespace).reverse

/-! ## Stable sort with a JS numeric comparator

`Array.prototype.sort(cmp)` with a consistent comparator puts `a` before `b`
when `cmp a b < 0` and keeps the original order of ties; a stable insertion
sort realises exactly that.  (The search endpoint's comparator is not
consistent on pairs of prefix matches; there the insertion sort is one
faithful model of the implementation-defined JS result.) -/

/-- Insert `a` into `l`, placing it before the first element it need not
follow. -/
def insertCmp (cmp : α → α → ℚ) (a : α) : List α → List α
  | [] => [a]
  | b :: l => if cmp a b ≤ 0 then a :: b :: l else b :: insertCmp cmp a l

/-- Stable sort by a JS comparator (later elements inserted first, so an
earlier element ends up before any tie). -/
def jsSort (cmp : α → α → ℚ) : List α → List α
  | [] => []
  | a :: l => insertCmp cmp a (jsSort cmp l)

theorem mem_insertCmp {cmp : α → α → ℚ} {a x : α} {l : List α} :
    x ∈ insertCmp cmp a l ↔ x = a ∨ x ∈ l := by
  induction l with
  | nil => simp [insertCmp]
  | cons b t ih =>
    by_cases h : cmp a b ≤ 0
    · simp [insertCmp, h]
    · simp only [insertCmp, if_neg h, List.mem_cons, ih]
      tauto

theorem mem_jsSort {cmp : α → α → ℚ} {x : α} {l : List α} :
    x ∈ jsSort cmp l ↔ x ∈ l := by
  induction l with
  | nil => simp [jsSort]
  | cons a t ih => simp [jsSort, mem_insertCmp, ih]

theorem length_insertCmp (cmp : α → α → ℚ) (a : α) (l : List α) :
    (insertCmp cmp a l).length = l.length + 1 := by
  induction l with
  | nil => rfl
  | cons b t ih =>
    by_cases h : cmp a b ≤ 0
    · simp [insertCmp, h]
    · simp [insertCmp, h, ih]

theorem length_jsSort (cmp : α → α → ℚ) (l : List α) :
    (jsSort cmp l).length = l.length := by
  induction l with
  | nil => rfl
  | cons a t ih => simp [jsSort, length_insertCmp, ih]

/-- The comparator `(a, b) => key b - key a` used for score-descending sorts. -/
def scoreCmp (key : α → ℚ) (a b : α) : ℚ := key b - key a

theorem pairwise_insertCmp_scoreCmp (key : α → ℚ) (a : α) (l : List α)
    (h : l.Pairwise (fun x y => key y ≤ key x)) :
    (insertCmp (scoreCmp key) a l).Pairwise (fun x y => key y ≤ key x) := by
  induction l with
  | nil => simp [insertCmp]
  | cons b t ih =>
    rcases List.pairwise_cons.mp h with ⟨hb, ht⟩
    by_cases hc : scoreCmp key a b ≤ 0
    · have hba : key b ≤ key a := by
        have := hc
        simp only [scoreCmp, sub_nonpos] at this
        exact this
      simp only [insertCmp, if_pos hc]
      refine List.pairwise_cons.mpr ⟨?_, h⟩
      intro x hx
      rcases List.mem_cons.mp hx with rfl | hx
      · exact hba
      · exact le_trans (hb x hx) hba
    · have hab : key a ≤ key b := by
        simp only [scoreCmp, sub_nonpos, not_le] at hc
        exact le_of_lt hc
      simp only [insertCmp, if_neg hc]
      refine List.pairwise_cons.mpr ⟨?_, ih ht⟩
      intro x hx
      rcases mem_insertCmp.mp hx with rfl | hx
      · exact hab
      · exact hb x hx

theorem pairwise_jsSort_scoreCmp (key : α → ℚ) (l : List α) :
    (jsSort (scoreCmp key) l).Pairwise (fun x y => key y ≤ key x) := by
  induction l with
  | nil => simp [jsSort]
  | cons a t ih => exact pairwise_insertCmp_scoreCmp key a _ ih

/-- If `e` beats every element under `cmp` and no other element beats `e`,
then the sorted list starts with `e`. -/
theorem jsSort_head_of_top {cmp : α → α → ℚ} {e : α} {l : List α}
    (he : e ∈ l)
    (hbeats : ∀ x, cmp e x ≤ 0)
    (hothers : ∀ x ∈ l, x ≠ e → ¬ cmp x e ≤ 0) :
    (jsSort cmp l).head? = some e := by
  induction l with
  | nil => cases he
  | cons a t ih =>
    by_cases hae : a = e
    · subst hae
      show (insertCmp cmp a (jsSort cmp t)).head? = some a
      cases h : jsSort cmp t with
      | nil => simp [insertCmp]
      | cons b rest => simp [insertCmp, hbeats b]
    · have hel : e ∈ t := by
        rcases List.mem_cons.mp he with h | h
        · exact absurd h.symm hae
        · exact h
      have hx : (jsSort cmp t).head? = some e :=
        ih hel (fun x hx hne => hothers x (List.mem_cons_of_mem a hx) hne)
      show (insertCmp cmp a (jsSort cmp t)).head? = some e
      cases h : jsSort cmp t with
      | nil => rw [h] at hx; cases hx
      | cons b rest =>
        rw [h] at hx
        have hbe : b = e := by simpa using hx
        subst hbe
        have hna : ¬ cmp a b ≤ 0 := hothers a (List.mem_cons_self a t) hae
        simp [insertCmp, hna]

/-- 1-based ranking: `addRank l` pairs each element with its 1-based index. -/
def addRankFrom (n : ℕ) : List α → List (ℕ × α)
  | [] => []
  | a :: l => (n, a) :: addRankFrom (n + 1) l

def addRank (l : List α) : List (ℕ × α) := addRankFrom 1 l

theorem mem_of_mem_addRankFrom {n : ℕ} {l : List α} {r : ℕ} {e : α}
    (h : (r, e) ∈ addRankFrom n l) : e ∈ l := by
  induction l generalizing n with
  | nil => cases h
  | cons a t ih =>
    rcases List.mem_cons.mp h with h | h
    · cases h; exact List.mem_cons_self _ _
    · exact List.mem_cons_of_mem a (ih h)

theorem mem_of_mem_addRank {l : List α} {r : ℕ} {e : α}
    (h : (r, e) ∈ addRank l) : e ∈ l := mem_of_mem_addRankFrom h

theorem length_addRankFrom (n : ℕ) (l : List α) :
    (addRankFrom n l).length = l.length := by
  induction l generalizing n with
  | nil => rfl
  | cons a t ih => simp [addRankFrom, ih]

theorem length_addRank (l : List α) : (addRank l).length = l.length :=
  length_addRankFrom 1 l

theorem mem_jsSliceEnd {l : List α} {e : Option Int} {x : α}
    (h : x ∈ jsSliceEnd l e) : x ∈ l := by
  cases e with
  | none => cases h
  | some v =>
    by_cases hv : v < 0
    · simp only [jsSliceEnd, if_pos hv] at h
      exact List.take_subset _ _ h
    · simp only [jsSliceEnd, if_neg hv] at h
      exact List.take_subset _ _ h

/-! ## Data model

A Firebase snapshot child: `key` is the record's id, `val` the stored user
record.  Absent JSON fields are `none`. -/

structure UserVal where
  username : Option String := none
  points : Option ℚ := none
  submissions : Option ℚ := none
  createdAt : Option ℚ := none
  lastActive : Option ℚ := none
  isActive : Option Bool := none
deriving DecidableEq

structure Child where
  key : String
  val : UserVal
deriving DecidableEq

/-- Explicit model of the JS `Math` functions used by the scoring branches:
`pow` models `Math.pow` and `log10` models `Math.log10`. -/
structure JsMath where
  pow : ℚ → ℚ → ℚ
  log10 : ℚ → ℚ

/-- A concrete `JsMath` used by closed theorems.  Its values are consulted
only at arguments where the IEEE double result is exact and agrees with it:
`Math.pow 1 y = 1` and `Math.log10 1 = 0`, `Math.log10 10 = 1`. -/
def mathModel : JsMath :=
  { pow := fun x _ => if x = 1 then 1 else 0
    log10 := fun x => if x = 10 then 1 else 0 }

/-- Common shape of the HTTP outcomes the ranking handlers can produce on
their GET/POST happy path: a JSON payload, or an HTTP 400 with an error
string (and, for the sort endpoint, the list of `available` algorithms). -/
inductive ApiResult (α : Type) where
  | ok (v : α)
  | badRequest (error : String) (available : List String)
deriving DecidableEq

/-! ## `src/api/trending.js` -/

/-- Time threshold of `trending.js` (lines 48–54): default 24 h, overridden
only for the five recognized keys `1h, 6h, 12h, 24h, 7d, 30d` (the `24h`
branch coincides with the default). -/
def trendingThreshold (now : ℚ) (timeframe : String) : ℚ :=
  if timeframe = "1h" then now - 60 * 60 * 1000
  else if timeframe = "6h" then now - 6 * 60 * 60 * 1000
  else if timeframe = "12h" then now - 12 * 60 * 60 * 1000
  else if timeframe = "7d" then now - 7 * 24 * 60 * 60 * 1000
  else if timeframe = "30d" then now - 30 * 24 * 60 * 60 * 1000
  else now - 24 * 60 * 60 * 1000

/-- Record filter of `trending.js` (lines 65–68): skip records missing a
truthy `username` or `createdAt`, then keep records inside the timeframe
whose `isActive` is not explicitly `false`. -/
def trendingKeep (now : ℚ) (timeframe : String) (u : UserVal) : Bool :=
  strTruthy u.username && numTruthy u.createdAt &&
    (u.createdAt.getD 0 > trendingThreshold now timeframe) &&
    (u.isActive ≠ some false)

/-- Score branches of `trending.js` (lines 74–97), as a function of the
already-computed `points`, `submissions` and `ageInHours`.  Unknown
algorithm keys fall through to the simple points-per-hour branch. -/
def trendingScore (m : JsMath) (alg : String)
    (points submissions ageInHours : ℚ) : ℚ :=
  if alg = "hackernews" then
    (points + submissions * 2) / m.pow (ageInHours + 2) (9 / 5)
  else if alg = "reddit" then
    let order := m.log10 (max |points| 1)
    let sign : ℚ := if points > 0 then 1 else -1
    let seconds := ageInHours * 3600
    sign * order + seconds / 45000
  else if alg = "velocity" then
    (points / max 1 ageInHours) * (1 + submissions / max 1 ageInHours)
  else
    points / max 1 ageInHours

structure TrendEntry where
  id : String
  username : String
  points : ℚ
  submissions : ℚ
  trendScore : ℚ
  createdAt : ℚ
  lastActive : ℚ
deriving DecidableEq

/-- `const ageInHours = (now - user.createdAt) / (1000 * 60 * 60)` of
`trending.js` line 70 — computed without clamping at `0`. -/
def trendingAgeHours (now createdAt : ℚ) : ℚ :=
  (now - createdAt) / (1000 * 60 * 60)

/-- Entry pushed by `trending.js` (lines 99–107); the score is rounded to
4 decimal places here, before the sort. -/
def mkTrendEntry (m : JsMath) (alg : String) (now : ℚ) (c : Child) : TrendEntry :=
  let u := c.val
  let ageInHours := trendingAgeHours now (u.createdAt.getD 0)
  let points := u.points.getD 0
  let submissions := u.submissions.getD 0
  { id := c.key
    username := u.username.getD ""
    points := points
    submissions := submissions
    trendScore := round4 (trendingScore m alg points submissions ageInHours)
    createdAt := u.createdAt.getD 0
    lastActive := numOr u.lastActive (u.createdAt.getD 0) }

/-- The `users` array after the `snapshot.forEach` loop of `trending.js`. -/
def trendingUsersList (m : JsMath) (alg timeframe : String) (now : ℚ)
    (records : List Child) : List TrendEntry :=
  records.filterMap (fun c =>
    if trendingKeep now timeframe c.val then some (mkTrendEntry m alg now c)
    else none)

/-- `users.sort((a, b) => b.trendScore - a.trendScore)`. -/
def trendingSorted (m : JsMath) (alg timeframe : String) (now : ℚ)
    (records : List Child) : List TrendEntry :=
  jsSort (scoreCmp TrendEntry.trendScore)
    (trendingUsersList m alg timeframe now records)

structure TrendingResp where
  timeframe : String
  algorithm : String
  totalAnalyzed : ℕ
  trending : List (ℕ × TrendEntry)
deriving DecidableEq

/-- Response body of `trending.js` (lines 111–127):
`const limitNum = parseInt(limit) || 10` then `users.slice(0, limitNum)`. -/
def trendingResp (m : JsMath) (alg timeframe limit : String) (now : ℚ)
    (records : List Child) : TrendingResp :=
  let users := trendingSorted m alg timeframe now records
  let limitNum := parseIntOr limit 10
  { timeframe := timeframe
    algorithm := alg
    totalAnalyzed := users.length
    trending := addRank (jsSliceEnd users (some limitNum)) }

/-- GET handler of `trending.js` (lines 43–127): the algorithm key is never
validated, so the happy path always returns `ok`. -/
def trendingHandler (m : JsMath) (alg timeframe limit : String) (now : ℚ)
    (records : List Child) : ApiResult TrendingResp :=
  ApiResult.ok (trendingResp m alg timeframe limit now records)

/-! ## `src/api/sort.js` -/

/-- Keys of `SORT_ALGORITHMS` (lines 42–78), in object-literal order. -/
def sortAlgoKeys : List String :=
  ["trending", "new", "top", "active", "efficient", "recent"]

/-- The `SORT_ALGORITHMS` registry of `sort.js` as one dispatch function.
Each branch mirrors the corresponding arrow function; a missing `createdAt`
is substituted by `now` (`user.createdAt || now`) inside the age-based
branches.  The final `0` arm is unreachable: the handler validates the key
against `sortAlgoKeys` first. -/
def sortAlgoScore (m : JsMath) (alg : String) (u : UserVal) (now : ℚ) : ℚ :=
  if alg = "trending" then
    let ageInHours := (now - numOr u.createdAt now) / (1000 * 60 * 60)
    (u.points.getD 0 + u.submissions.getD 0 * 2) / m.pow (ageInHours + 2) (9 / 5)
  else if alg = "new" then
    -(numOr u.createdAt 0)
  else if alg = "top" then
    u.points.getD 0
  else if alg = "active" then
    u.submissions.getD 0
  else if alg = "efficient" then
    let ageInDays := (now - numOr u.createdAt now) / (1000 * 60 * 60 * 24)
    u.points.getD 0 / max 1 ageInDays
  else if alg = "recent" then
    numOr u.lastActive (numOr u.createdAt 0)
  else 0

/-- Time threshold of `sort.js` (lines 122–129): `0` except for the three
recognized keys `today`, `week`, `month`. -/
def sortThreshold (now : ℚ) (timeframe : String) : ℚ :=
  if timeframe = "today" then now - 24 * 60 * 60 * 1000
  else if timeframe = "week" then now - 7 * 24 * 60 * 60 * 1000
  else if timeframe = "month" then now - 30 * 24 * 60 * 60 * 1000
  else 0

/-- Record filter of `sort.js` (lines 131–142): drop `isActive === false`;
when `timeframe !== 'all'` drop records with no truthy `createdAt` or with
`createdAt < threshold`; drop records with `points || 0 < parseInt(minPoints)`
(when `minPoints` parses to `NaN` the comparison is false and nothing is
dropped). -/
def sortKeep (now : ℚ) (timeframe minPoints : String) (u : UserVal) : Bool :=
  (u.isActive ≠ some false) &&
    (timeframe = "all" ||
      (numTruthy u.createdAt &&
        !(u.createdAt.getD 0 < sortThreshold now timeframe))) &&
    (match parseIntJS minPoints with
     | none => true
     | some mp => !(u.points.getD 0 < (mp : ℚ)))

structure SortEntry where
  id : String
  username : String
  points : ℚ
  submissions : ℚ
  createdAt : ℚ
  lastActive : ℚ
  score : ℚ
deriving DecidableEq

/-- Entry pushed by `sort.js` (lines 147–157); the score is rounded to
4 decimal places here, before the sort.  The `joined` / `active` display
strings (built by `timeAgo` from the wall clock) are not modelled. -/
def mkSortEntry (m : JsMath) (alg : String) (now : ℚ) (c : Child) : SortEntry :=
  let u := c.val
  { id := c.key
    username := strOr u.username "Anonymous"
    points := u.points.getD 0
    submissions := u.submissions.getD 0
    createdAt := numOr u.createdAt now
    lastActive := numOr u.lastActive (numOr u.createdAt now)
    score := round4 (sortAlgoScore m alg u now) }

/-- The `users` array after the `snapshot.forEach` loop of `sort.js`. -/
def sortUsersList (m : JsMath) (alg timeframe minPoints : String) (now : ℚ)
    (records : List Child) : List SortEntry :=
  records.filterMap (fun c =>
    if sortKeep now timeframe minPoints c.val then some (mkSortEntry m alg now c)
    else none)

/-- `users.sort((a, b) => b.score - a.score)`. -/
def sortSorted (m : JsMath) (alg timeframe minPoints : String) (now : ℚ)
    (records : List Child) : List SortEntry :=
  jsSort (scoreCmp SortEntry.score)
    (sortUsersList m alg timeframe minPoints now records)

structure SortResp where
  algorithm : String
  limitNum : Option Int
  timeframe : String
  totalUsers : ℕ
  users : List (ℕ × SortEntry)
deriving DecidableEq

/-- GET handler of `sort.js` (lines 100–188): a key outside
`SORT_ALGORITHMS` yields HTTP 400 with the `available` list; otherwise
filter, score (rounding first), sort by the rounded score, and slice with
the raw `parseInt(limit)` (so a `NaN` limit slices to the empty list).
Only the `totalUsers` statistic is modelled. -/
def sortRespOk (m : JsMath) (alg limit timeframe minPoints : String)
    (now : ℚ) (records : List Child) : SortResp :=
  let users := sortSorted m alg timeframe minPoints now records
  let limitNum := parseIntJS limit
  { algorithm := alg
    limitNum := limitNum
    timeframe := timeframe
    totalUsers := users.length
    users := addRank (jsSliceEnd users limitNum) }

def sortHandler (m : JsMath) (alg limit timeframe minPoints : String)
    (now : ℚ) (records : List Child) : ApiResult SortResp :=
  if alg ∈ sortAlgoKeys then
    ApiResult.ok (sortRespOk m alg limit timeframe minPoints now records)
  else
    ApiResult.badRequest ("Invalid algorithm: " ++ alg) sortAlgoKeys

/-! ## `src/api/search.js` -/

/-- A dynamically accessed JS field value (`user[field]`). -/
inductive FieldVal where
  | undefinedV
  | numV (q : ℚ)
  | strV (s : String)
  | boolV (b : Bool)
deriving DecidableEq

/-- `user[field]` for the fields of the data model; any other name is
`undefined`. -/
def UserVal.get (u : UserVal) (field : String) : FieldVal :=
  if field = "username" then
    match u.username with | some s => .strV s | none => .undefinedV
  else if field = "points" then
    match u.points with | some q => .numV q | none => .undefinedV
  else if field = "submissions" then
    match u.submissions with | some q => .numV q | none => .undefinedV
  else if field = "createdAt" then
    match u.createdAt with | some q => .numV q | none => .undefinedV
  else if field = "lastActive" then
    match u.lastActive with | some q => .numV q | none => .undefinedV
  else if field = "isActive" then
    match u.isActive with | some b => .boolV b | none => .undefinedV
  else .undefinedV

/-- JS truthiness of a field value. -/
def FieldVal.truthy : FieldVal → Bool
  | .undefinedV => false
  | .numV q => decide (q ≠ 0)
  | .strV s => decide (s ≠ "")
  | .boolV b => b

/-- `v.toString()`.  Number formatting is modelled by `ℚ`'s representation;
no theorem in this file compares the string form of a numeric field. -/
def FieldVal.toStr : FieldVal → String
  | .undefinedV => "undefined"
  | .numV q => toString q
  | .strV s => s
  | .boolV b => toString b

structure SearchEntry where
  id : String
  username : String
  points : ℚ
  submissions : ℚ
  fieldVal : FieldVal
  lastActive : Option ℚ
  createdAt : Option ℚ
deriving DecidableEq

/-- Match test of `search.js` (lines 70–73): the field value is truthy and
its lowercased string form contains the lowercased query. -/
def searchMatches (query field : String) (u : UserVal) : Bool :=
  (u.get field).truthy &&
    listContains (jsLower (u.get field).toStr) (jsLower query)

/-- Entry pushed by `search.js` (lines 75–83).  `lastActive` is
`user.lastActive || user.createdAt` (with `||` returning the raw, possibly
absent, `createdAt`). -/
def mkSearchEntry (field : String) (c : Child) : SearchEntry :=
  let u := c.val
  { id := c.key
    username := strOr u.username "Unknown"
    points := u.points.getD 0
    submissions := u.submissions.getD 0
    fieldVal := u.get field
    lastActive := if numTruthy u.lastActive then u.lastActive else u.createdAt
    createdAt := u.createdAt }

/-- The `results` array after the `snapshot.forEach` loop of `search.js`
(lines 64–85): records with `isActive === false` are skipped before the
match test. -/
def searchResultsList (query field : String) (records : List Child) :
    List SearchEntry :=
  records.filterMap (fun c =>
    if c.val.isActive ≠ some false && searchMatches query field c.val then
      some (mkSearchEntry field c)
    else none)

/-- Relevance comparator of `search.js` (lines 88–100); `a[field]` is the
`fieldVal` captured in the entry. -/
def searchCmp (query : String) (a b : SearchEntry) : ℚ :=
  let aV := jsLower a.fieldVal.toStr
  let bV := jsLower b.fieldVal.toStr
  let searchTerm := jsLower query
  if aV = searchTerm then -1
  else if bV = searchTerm then 1
  else if searchTerm.isPrefixOf aV then -1
  else if searchTerm.isPrefixOf bV then 1
  else numOr b.lastActive 0 - numOr a.lastActive 0

structure SearchResp where
  query : String
  field : String
  count : ℕ
  totalMatches : ℕ
  results : List SearchEntry
deriving DecidableEq

/-- POST handler of `search.js` (lines 50–112): reject queries whose
trimmed length is below 2, else match, sort by relevance and slice with
`parseInt(limit) || 20`. -/
def searchRespOk (query field limit : String) (records : List Child) :
    SearchResp :=
  let results := searchResultsList query field records
  let sorted := jsSort (searchCmp query) results
  let limited := jsSliceEnd sorted (some (parseIntOr limit 20))
  { query := query
    field := field
    count := limited.length
    totalMatches := results.length
    results := limited }

def searchHandler (query field limit : String) (records : List Child) :
    ApiResult SearchResp :=
  if (listTrim query.toList).length < 2 then
    ApiResult.badRequest "Search query must be at least 2 characters" []
  else
    ApiResult.ok (searchRespOk query field limit records)

/-! ## Unnamed handler variants -/

/-- Time threshold of `src/unnamed/part_000` (lines 46–53):
`{...}[timeframe] || (now - 24h)`.  A key outside the six-entry map — and
the degenerate case of a mapped value equal to `0`, which JS `||` also
rejects — falls back to the 24 h default. -/
def part000Threshold (now : ℚ) (timeframe : String) : ℚ :=
  let mapped : Option ℚ :=
    if timeframe = "1h" then some (now - 60 * 60 * 1000)
    else if timeframe = "6h" then some (now - 6 * 60 * 60 * 1000)
    else if timeframe = "12h" then some (now - 12 * 60 * 60 * 1000)
    else if timeframe = "24h" then some (now - 24 * 60 * 60 * 1000)
    else if timeframe = "7d" then some (now - 7 * 24 * 60 * 60 * 1000)
    else if timeframe = "30d" then some (now - 30 * 24 * 60 * 60 * 1000)
    else none
  numOr mapped (now - 24 * 60 * 60 * 1000)

/-- `calculateTrendingScore` of `src/unnamed/part_002` (lines 63–87): age
uses `user.createdAt || now` and the `switch` defaults to the hackernews
branch for unknown keys. -/
def part002CalculateTrendingScore (m : JsMath) (u : UserVal) (alg : String)
    (now : ℚ) : ℚ :=
  let ageInHours := (now - numOr u.createdAt now) / (1000 * 60 * 60)
  let points := u.points.getD 0
  let submissions := u.submissions.getD 0
  if alg = "reddit" then
    let order := m.log10 (max |points| 1)
    let sign : ℚ := if points > 0 then 1 else -1
    let seconds := ageInHours * 3600
    sign * order + seconds / 45000
  else if alg = "velocity" then
    (points / max 1 ageInHours) * (1 + submissions / max 1 ageInHours)
  else
    (points + submissions * 2) / m.pow (ageInHours + 2) (9 / 5)

/-- `const limitNum = parseInt(limit) || 20` of `src/unnamed/part_001`
(line 133): the default 20 replaces a `NaN` or zero parse, while any other
value — negative ones included — passes through to `slice`. -/
def part001LimitNum (limit : String) : Int := parseIntOr limit 20

/-- Record filter of `src/unnamed/part_000` (line 64): keep records with a
truthy `createdAt` inside the timeframe whose `isActive` is not explicitly
`false`. -/
def part000Keep (now : ℚ) (timeframe : String) (u : UserVal) : Bool :=
  numTruthy u.createdAt &&
    (u.createdAt.getD 0 > part000Threshold now timeframe) &&
    (u.isActive ≠ some false)

/-- Entry pushed by `src/unnamed/part_000` (lines 95–103): identical to the
`trending.js` entry except `username || 'Unknown'`; the score branches
(lines 72–93) are textually the same as `trending.js` lines 74–97, so
`trendingScore` is reused. -/
def mkPart000Entry (m : JsMath) (alg : String) (now : ℚ) (c : Child) :
    TrendEntry :=
  let u := c.val
  let ageInHours := trendingAgeHours now (u.createdAt.getD 0)
  { id := c.key
    username := strOr u.username "Unknown"
    points := u.points.getD 0
    submissions := u.submissions.getD 0
    trendScore := round4 (trendingScore m alg (u.points.getD 0)
      (u.submissions.getD 0) ageInHours)
    createdAt := u.createdAt.getD 0
    lastActive := numOr u.lastActive (u.createdAt.getD 0) }

/-- The `users` array after the `snapshot.forEach` loop of
`src/unnamed/part_000`. -/
def part000UsersList (m : JsMath) (alg timeframe : String) (now : ℚ)
    (records : List Child) : List TrendEntry :=
  records.filterMap (fun c =>
    if part000Keep now timeframe c.val then some (mkPart000Entry m alg now c)
    else none)

/-- Response body of `src/unnamed/part_000` (lines 107–122): sort by
`trendScore`, then `users.slice(0, parseInt(limit))` — the *raw*
`parseInt`, with no `|| default`, unlike `trending.js`. -/
def part000Resp (m : JsMath) (alg timeframe limit : String) (now : ℚ)
    (records : List Child) : TrendingResp :=
  let users := jsSort (scoreCmp TrendEntry.trendScore)
    (part000UsersList m alg timeframe now records)
  { timeframe := timeframe
    algorithm := alg
    totalAnalyzed := users.length
    trending := addRank (jsSliceEnd users (parseIntJS limit)) }

/-! ## Registration handlers' user records (points / isActive defaults) -/

/-- Shape of the record written by `src/api/register.js` (lines 76–88) and
by the Firebase write of `src/unnamed/part_006` (lines 87–100). -/
structure RegUserData where
  id : String
  username : String
  username_lower : String
  password : String
  email : Option String
  points : ℚ
  submissions : ℚ
  createdAt : ℚ
  lastActive : ℚ
  isActive : Bool
  role : String
deriving DecidableEq

/-- `userData` of `src/api/register.js` (lines 76–88).  `passwordHash` is
the base64 encoding computed on line 74 (the encoding itself is not
modelled). -/
def registerUserData (userId username passwordHash : String)
    (email : Option String) (now : ℚ) : RegUserData :=
  { id := userId
    username := username
    username_lower := jsLowerStr username
    password := passwordHash
    email := email
    points := 10
    submissions := 0
    createdAt := now
    lastActive := now
    isActive := true
    role := "user" }

/-- `userData` of the `src/unnamed/part_006` Firebase write (lines 87–100);
same shape as `register.js`. -/
def part006UserData (userId username passwordHash : String)
    (email : Option String) (now : ℚ) : RegUserData :=
  { id := userId
    username := username
    username_lower := jsLowerStr username
    password := passwordHash
    email := email
    points := 10
    submissions := 0
    createdAt := now
    lastActive := now
    isActive := true
    role := "user" }

/-- Shape of the record written by `handleRegister` in
`src/unnamed/part_002` (lines 248–258). -/
structure AuthUserData where
  uid : String
  username : String
  email : String
  points : ℚ
  submissions : ℚ
  createdAt : ℚ
  lastActive : ℚ
  emailVerified : Bool
  isActive : Bool
deriving DecidableEq

/-- `userData` of `handleRegister` in `src/unnamed/part_002`
(lines 248–258). -/
def part002RegisterUserData (uid username email : String)
    (emailVerified : Bool) (now : ℚ) : AuthUserData :=
  { uid := uid
    username := username
    email := email
    points := 10
    submissions := 0
    createdAt := now
    lastActive := now
    emailVerified := emailVerified
    isActive := true }

/-- Shape of the record written by `src/unnamed/part_004` (lines 100–111):
no `submissions` and no `role` field. -/
structure P4UserData where
  id : String
  username : String
  username_lower : String
  password : String
  email : Option String
  points : ℚ
  createdAt : ℚ
  lastActive : ℚ
  isActive : Bool
deriving DecidableEq

/-- `userData` of `src/unnamed/part_004` (lines 100–111). -/
def part004UserData (userId username passwordHash : String)
    (email : Option String) (now : ℚ) : P4UserData :=
  { id := userId
    username := username
    username_lower := jsLowerStr username
    password := passwordHash
    email := email
    points := 10
    createdAt := now
    lastActive := now
    isActive := true }

/-! ## Helper lemmas -/

theorem strTruthy_getD_ne {o : Option String} (h : strTruthy o = true) :
    o.getD "" ≠ "" := by
  cases o with
  | none => simp [strTruthy] at h
  | some s => simpa [strTruthy] using h

theorem numTruthy_getD_ne {o : Option ℚ} (h : numTruthy o = true) :
    o.getD 0 ≠ 0 := by
  cases o with
  | none => simp [numTruthy] at h
  | some q => simpa [numTruthy] using h

theorem listContains_refl (l : List Char) : listContains l l = true := by
  cases l with
  | nil => rfl
  | cons a t =>
    simp only [listContains, List.any_eq_true]
    refine ⟨a :: t, by simp [List.tails], ?_⟩
    simp [List.isPrefixOf_iff_prefix]

theorem head?_jsSliceEnd_pos {l : List α} {n : Int} (h : 0 < n) :
    (jsSliceEnd l (some n)).head? = l.head? := by
  have hn : ¬ n < 0 := by omega
  have h1 : 1 ≤ n.toNat := by omega
  simp only [jsSliceEnd, if_neg hn]
  cases l with
  | nil => simp
  | cons a t =>
    obtain ⟨k, hk⟩ : ∃ k, n.toNat = k + 1 := ⟨n.toNat - 1, by omega⟩
    simp [hk]

/-- Every ranked trending entry originates from a record that passed the
`trending.js` filter. -/
theorem trendingResp_mem_provenance {m : JsMath} {alg timeframe limit : String}
    {now : ℚ} {records : List Child} {r : ℕ} {e : TrendEntry}
    (h : (r, e) ∈ (trendingResp m alg timeframe limit now records).trending) :
    ∃ c ∈ records, trendingKeep now timeframe c.val = true ∧
      e = mkTrendEntry m alg now c := by
  have h1 : e ∈ jsSliceEnd (trendingSorted m alg timeframe now records)
      (some (parseIntOr limit 10)) := mem_of_mem_addRank h
  have h2 : e ∈ trendingSorted m alg timeframe now records := mem_jsSliceEnd h1
  have h3 : e ∈ trendingUsersList m alg timeframe now records := mem_jsSort.mp h2
  obtain ⟨c, hc, he⟩ := List.mem_filterMap.mp h3
  obtain ⟨hkeep, heq⟩ := Option.ite_none_right_eq_some.mp he
  refine ⟨c, hc, hkeep, ?_⟩
  simpa using heq.symm

/-- Every ranked sort entry originates from a record that passed the
`sort.js` filter. -/
theorem sortRespOk_mem_provenance {m : JsMath}
    {alg limit timeframe minPoints : String} {now : ℚ} {records : List Child}
    {r : ℕ} {e : SortEntry}
    (h : (r, e) ∈ (sortRespOk m alg limit timeframe minPoints now records).users) :
    ∃ c ∈ records, sortKeep now timeframe minPoints c.val = true ∧
      e = mkSortEntry m alg now c := by
  have h1 : e ∈ jsSliceEnd (sortSorted m alg timeframe minPoints now records)
      (parseIntJS limit) := mem_of_mem_addRank h
  have h2 : e ∈ sortSorted m alg timeframe minPoints now records :=
    mem_jsSliceEnd h1
  have h3 : e ∈ sortUsersList m alg timeframe minPoints now records :=
    mem_jsSort.mp h2
  obtain ⟨c, hc, he⟩ := List.mem_filterMap.mp h3
  obtain ⟨hkeep, heq⟩ := Option.ite_none_right_eq_some.mp he
  refine ⟨c, hc, hkeep, ?_⟩
  simpa using heq.symm

/-- Every element of the matched `results` array originates from an active
record that passed the match test. -/
theorem searchList_mem_provenance {query field : String}
    {records : List Child} {e : SearchEntry}
    (h : e ∈ searchResultsList query field records) :
    ∃ c ∈ records, (c.val.isActive ≠ some false ∧
      searchMatches query field c.val = true) ∧ e = mkSearchEntry field c := by
  obtain ⟨c, hc, he⟩ := List.mem_filterMap.mp h
  obtain ⟨hkeep, heq⟩ := Option.ite_none_right_eq_some.mp he
  have hkeep2 := hkeep
  rw [Bool.and_eq_true] at hkeep2
  refine ⟨c, hc, ⟨of_decide_eq_true hkeep2.1, hkeep2.2⟩, ?_⟩
  simpa using heq.symm

/-- Every search result originates from an active record that matched. -/
theorem searchRespOk_mem_provenance {query field limit : String}
    {records : List Child} {e : SearchEntry}
    (h : e ∈ (searchRespOk query field limit records).results) :
    ∃ c ∈ records, (c.val.isActive ≠ some false ∧
      searchMatches query field c.val = true) ∧ e = mkSearchEntry field c := by
  simp only [searchRespOk] at h
  have h2 : e ∈ jsSort (searchCmp query) (searchResultsList query field records) :=
    mem_jsSliceEnd h
  exact searchList_mem_provenance (mem_jsSort.mp h2)

theorem pairwise_addRankFrom {R : α → α → Prop} {l : List α} (n : ℕ)
    (h : l.Pairwise R) :
    (addRankFrom n l).Pairwise (fun a b => R a.2 b.2) := by
  induction l generalizing n with
  | nil => exact List.Pairwise.nil
  | cons a t ih =>
    rcases List.pairwise_cons.mp h with ⟨ha, ht⟩
    refine List.pairwise_cons.mpr ⟨?_, ih (n + 1) ht⟩
    intro p hp
    exact ha p.2 (mem_of_mem_addRankFrom hp)

theorem pairwise_addRank {R : α → α → Prop} {l : List α}
    (h : l.Pairwise R) : (addRank l).Pairwise (fun a b => R a.2 b.2) :=
  pairwise_addRankFrom 1 h

theorem jsSliceEnd_sublist (l : List α) (e : Option Int) :
    (jsSliceEnd l e).Sublist l := by
  cases e with
  | none => exact List.nil_sublist l
  | some v =>
    by_cases hv : v < 0
    · simp only [jsSliceEnd, if_pos hv]
      exact List.take_sublist _ l
    · simp only [jsSliceEnd, if_neg hv]
      exact List.take_sublist _ l

/-- Key-distinctness turns a key collision into record equality. -/
theorem eq_of_key_eq_of_nodup {records : List Child}
    (hids : (records.map Child.key).Nodup) {c d : Child}
    (hc : c ∈ records) (hd : d ∈ records) (h : c.key = d.key) : c = d :=
  List.inj_on_of_nodup_map hids hc hd h

/-! ## Claims -/

/-- C10: every user record written by a registration handler is created with
`points = 10` and `isActive = true` (not the data model's stated default of
`points = 0`), across `register.js`, `handleRegister` of
`src/unnamed/part_002`, `src/unnamed/part_004` and the Firebase write of
`src/unnamed/part_006`. -/
theorem C10_register_points_ten
    (userId username passwordHash uid email2 : String)
    (email : Option String) (emailVerified : Bool) (now : ℚ) :
    (registerUserData userId username passwordHash email now).points = 10 ∧
    (registerUserData userId username passwordHash email now).isActive = true ∧
    (part002RegisterUserData uid username email2 emailVerified now).points = 10 ∧
    (part002RegisterUserData uid username email2 emailVerified now).isActive = true ∧
    (part004UserData userId username passwordHash email now).points = 10 ∧
    (part004UserData userId username passwordHash email now).isActive = true ∧
    (part006UserData userId username passwordHash email now).points = 10 ∧
    (part006UserData userId username passwordHash email now).isActive = true :=
  ⟨rfl, rfl, rfl, rfl, rfl, rfl, rfl, rfl⟩

/-- C9: every entry returned by the trending endpoint comes from a record
with a truthy `username` and a truthy `createdAt` (both are checked before
scoring, for every algorithm and timeframe), so the returned `username` is
never empty and the returned `createdAt` never `0`. -/
theorem C9_trending_requires_username_createdAt
    (m : JsMath) (alg timeframe limit : String) (now : ℚ)
    (records : List Child) (r : ℕ) (e : TrendEntry)
    (he : (r, e) ∈ (trendingResp m alg timeframe limit now records).trending) :
    e.username ≠ "" ∧ e.createdAt ≠ 0 := by
  obtain ⟨c, _, hkeep, heq⟩ := trendingResp_mem_provenance he
  rw [trendingKeep] at hkeep
  simp only [Bool.and_eq_true] at hkeep
  obtain ⟨⟨⟨hu, hc⟩, _⟩, _⟩ := hkeep
  subst heq
  exact ⟨strTruthy_getD_ne hu, numTruthy_getD_ne hc⟩

/-- Outside its five override keys, the `trending.js` threshold is the
24 h default. -/
theorem trendingThreshold_eq_default (now : ℚ) (tf : String)
    (h : tf ∉ (["1h", "6h", "12h", "7d", "30d"] : List String)) :
    trendingThreshold now tf = now - 24 * 60 * 60 * 1000 := by
  simp only [List.mem_cons, List.not_mem_nil, or_false, not_or] at h
  obtain ⟨h1, h2, h3, h4, h5⟩ := h
  simp only [trendingThreshold, if_neg h1, if_neg h2, if_neg h3, if_neg h4,
    if_neg h5]

/-- Outside its three override keys, the `sort.js` threshold is `0`. -/
theorem sortThreshold_eq_zero (now : ℚ) (tf : String)
    (h : tf ∉ (["today", "week", "month"] : List String)) :
    sortThreshold now tf = 0 := by
  simp only [List.mem_cons, List.not_mem_nil, or_false, not_or] at h
  obtain ⟨h1, h2, h3⟩ := h
  simp only [sortThreshold, if_neg h1, if_neg h2, if_neg h3]

/-- Outside its six map keys, the `part_000` threshold is the 24 h default. -/
theorem part000Threshold_eq_default (now : ℚ) (tf : String)
    (h : tf ∉ (["1h", "6h", "12h", "24h", "7d", "30d"] : List String)) :
    part000Threshold now tf = now - 24 * 60 * 60 * 1000 := by
  simp only [List.mem_cons, List.not_mem_nil, or_false, not_or] at h
  obtain ⟨h1, h2, h3, h4, h5, h6⟩ := h
  simp [part000Threshold, if_neg h1, if_neg h2, if_neg h3, if_neg h4,
    if_neg h5, if_neg h6, numOr, numTruthy]

/-- Sample snapshot child used by concrete witnesses: an active record with
username `"u"`, 1 point, created one hour after the reference time `0`. -/
def wChild : Child :=
  { key := "w"
    val := { username := some "u", points := some 1, createdAt := some 3600000 } }

theorem C9_witness :
    (mkTrendEntry mathModel "velocity" 0 wChild).username ≠ "" ∧
    (mkTrendEntry mathModel "velocity" 0 wChild).createdAt ≠ 0 := by
  have hp : parseIntOr "10" 10 = 10 := by decide
  refine C9_trending_requires_username_createdAt mathModel "velocity" "24h" "10" 0
    [wChild] 1 _ ?_
  have ht := trendingThreshold_eq_default 0 "24h" (by decide)
  have hkeep : trendingKeep 0 "24h" wChild.val = true := by
    simp only [trendingKeep, wChild, Bool.and_eq_true, decide_eq_true_eq, ht]
    refine ⟨⟨⟨by decide, ?_⟩, by norm_num⟩, by decide⟩
    norm_num [numTruthy]
  simp only [trendingResp, trendingSorted, trendingUsersList, List.filterMap,
    hkeep, if_pos, jsSort, insertCmp, hp]
  simp [jsSliceEnd, addRank, addRankFrom]

/-- C7: a record whose `isActive` is explicitly `false` never appears in any
trending, sort or search output, for any algorithm, timeframe, limit,
min-points or query — provided snapshot keys are distinct (Firebase keys
are unique). -/
theorem C7_inactive_never_returned
    (m : JsMath) (alg timeframe limit alg2 limit2 timeframe2 minPoints
      query field limit3 : String)
    (now : ℚ) (records : List Child) (c : Child)
    (hids : (records.map Child.key).Nodup)
    (hc : c ∈ records) (hfalse : c.val.isActive = some false) :
    (∀ r e, (r, e) ∈ (trendingResp m alg timeframe limit now records).trending →
      e.id ≠ c.key) ∧
    (∀ r e, (r, e) ∈
        (sortRespOk m alg2 limit2 timeframe2 minPoints now records).users →
      e.id ≠ c.key) ∧
    (∀ e, e ∈ (searchRespOk query field limit3 records).results →
      e.id ≠ c.key) := by
  refine ⟨?_, ?_, ?_⟩
  · intro r e he hid
    obtain ⟨d, hd, hkeep, heq⟩ := trendingResp_mem_provenance he
    rw [trendingKeep] at hkeep
    simp only [Bool.and_eq_true, decide_eq_true_eq] at hkeep
    have hdk : d.key = c.key := by
      rw [← hid, heq]; rfl
    have : d = c := eq_of_key_eq_of_nodup hids hd hc hdk
    rw [this, hfalse] at hkeep
    exact hkeep.2 rfl
  · intro r e he hid
    obtain ⟨d, hd, hkeep, heq⟩ := sortRespOk_mem_provenance he
    rw [sortKeep] at hkeep
    simp only [Bool.and_eq_true, decide_eq_true_eq] at hkeep
    have hdk : d.key = c.key := by
      rw [← hid, heq]; rfl
    have : d = c := eq_of_key_eq_of_nodup hids hd hc hdk
    rw [this, hfalse] at hkeep
    exact hkeep.1.1 rfl
  · intro e he hid
    obtain ⟨d, hd, ⟨hact, _⟩, heq⟩ := searchRespOk_mem_provenance he
    have hdk : d.key = c.key := by
      rw [← hid, heq]; rfl
    have : d = c := eq_of_key_eq_of_nodup hids hd hc hdk
    rw [this, hfalse] at hact
    exact hact rfl

/-- Sample inactive record used by concrete witnesses. -/
def inactiveChild : Child :=
  { key := "x"
    val := { username := some "ghost", points := some 999,
             createdAt := some 3600000, isActive := some false } }

theorem C7_witness :
    (∀ r e, (r, e) ∈ (trendingResp mathModel "velocity" "24h" "10" 0
        [wChild, inactiveChild]).trending → e.id ≠ "x") ∧
    (∀ r e, (r, e) ∈ (sortRespOk mathModel "top" "20" "all" "0" 0
        [wChild, inactiveChild]).users → e.id ≠ "x") ∧
    (∀ e, e ∈ (searchRespOk "gh" "username" "20"
        [wChild, inactiveChild]).results → e.id ≠ "x") :=
  C7_inactive_never_returned mathModel "velocity" "24h" "10" "top" "20" "all"
    "0" "gh" "username" "20" 0 [wChild, inactiveChild] inactiveChild
    (by simp [wChild, inactiveChild])
    (List.mem_cons_of_mem _ (List.mem_cons_self _ _)) rfl

/-- C8: when exactly one active record's search field equals the query
case-insensitively, the search endpoint returns that record's entry at
position 0, ahead of all prefix and substring matches (for any valid query
and any positive parsed limit). -/
theorem C8_exact_match_first
    (query field limit : String) (records : List Child) (cstar : Child)
    (hlim : 0 < parseIntOr limit 20)
    (hstar : cstar ∈ records)
    (hact : cstar.val.isActive ≠ some false)
    (htruthy : (cstar.val.get field).truthy = true)
    (hexact : jsLower (cstar.val.get field).toStr = jsLower query)
    (huniq : ∀ c ∈ records, c.val.isActive ≠ some false →
      jsLower (c.val.get field).toStr = jsLower query → c = cstar) :
    (searchRespOk query field limit records).results.head? =
      some (mkSearchEntry field cstar) := by
  set estar := mkSearchEntry field cstar with hestar
  have hestarField : estar.fieldVal = cstar.val.get field := rfl
  have hmem : estar ∈ searchResultsList query field records := by
    refine List.mem_filterMap.mpr ⟨cstar, hstar, ?_⟩
    rw [if_pos]
    rw [Bool.and_eq_true]
    refine ⟨decide_eq_true hact, ?_⟩
    rw [searchMatches, Bool.and_eq_true]
    refine ⟨htruthy, ?_⟩
    rw [hexact]
    exact listContains_refl _
  have hbeats : ∀ x, searchCmp query estar x ≤ 0 := by
    intro x
    rw [searchCmp]
    simp only [hestarField, hexact, if_pos]
    norm_num
  have hothers : ∀ x ∈ searchResultsList query field records,
      x ≠ estar → ¬ searchCmp query x estar ≤ 0 := by
    intro x hx hne
    obtain ⟨c, hc, ⟨hcact, _⟩, hxc⟩ := searchList_mem_provenance hx
    have hxV : jsLower x.fieldVal.toStr ≠ jsLower query := by
      intro hcontra
      have hcv : jsLower (c.val.get field).toStr = jsLower query := by
        rw [hxc] at hcontra
        exact hcontra
      exact hne (by rw [hxc, huniq c hc hcact hcv])
    rw [searchCmp]
    simp only [if_neg hxV, hestarField, hexact, if_pos]
    norm_num
  have hhead : (jsSort (searchCmp query)
      (searchResultsList query field records)).head? = some estar :=
    jsSort_head_of_top hmem hbeats hothers
  show (jsSliceEnd (jsSort (searchCmp query)
      (searchResultsList query field records))
      (some (parseIntOr limit 20))).head? = some estar
  rw [head?_jsSliceEnd_pos hlim, hhead]

/-- Sample records for the search witness: a substring match listed first,
then the exact match. -/
def subChild : Child :=
  { key := "b", val := { username := some "malice" } }

def exactChild : Child :=
  { key := "a", val := { username := some "alice" } }

theorem C8_witness :
    (searchRespOk "alice" "username" "20" [subChild, exactChild]).results.head? =
      some (mkSearchEntry "username" exactChild) :=
  C8_exact_match_first "alice" "username" "20" [subChild, exactChild] exactChild
    (by decide)
    (List.mem_cons_of_mem _ (List.mem_cons_self _ _))
    (by decide)
    (by decide)
    (by decide)
    (by
      intro c hc hact hlow
      rcases List.mem_cons.mp hc with rfl | hc
      · exact absurd hlow (by decide)
      · rcases List.mem_cons.mp hc with rfl | hc
        · rfl
        · cases hc)

/-! ## Branch evaluation lemmas -/

theorem round4_eq {q : ℚ} {n : ℤ} (h1 : (n : ℚ) ≤ q * 10000 + 1 / 2)
    (h2 : q * 10000 + 1 / 2 < n + 1) : round4 q = (n : ℚ) / 10000 := by
  rw [round4]
  congr 1
  exact_mod_cast Int.floor_eq_iff.mpr ⟨h1, by exact_mod_cast h2⟩

theorem sortAlgoScore_top (m : JsMath) (u : UserVal) (now : ℚ) :
    sortAlgoScore m "top" u now = u.points.getD 0 := by
  rw [sortAlgoScore, if_neg (by decide), if_neg (by decide), if_pos rfl]

theorem sortAlgoScore_efficient (m : JsMath) (u : UserVal) (now : ℚ) :
    sortAlgoScore m "efficient" u now =
      u.points.getD 0 / max 1 ((now - numOr u.createdAt now) / (1000 * 60 * 60 * 24)) := by
  rw [sortAlgoScore, if_neg (by decide), if_neg (by decide), if_neg (by decide),
    if_neg (by decide), if_pos rfl]

theorem trendingScore_reddit (m : JsMath) (p s a : ℚ) :
    trendingScore m "reddit" p s a =
      (if p > 0 then (1 : ℚ) else -1) * m.log10 (max |p| 1) + a * 3600 / 45000 := by
  rw [trendingScore, if_neg (by decide), if_pos rfl]

theorem trendingScore_velocity (m : JsMath) (p s a : ℚ) :
    trendingScore m "velocity" p s a =
      (p / max 1 a) * (1 + s / max 1 a) := by
  rw [trendingScore, if_neg (by decide), if_neg (by decide), if_pos rfl]

/-- Any key outside the three named branches reaches the simple
points-per-hour fallback of `trending.js`. -/
theorem trendingScore_fallback (m : JsMath) (alg : String) (p s a : ℚ)
    (h : alg ∉ (["hackernews", "reddit", "velocity"] : List String)) :
    trendingScore m alg p s a = p / max 1 a := by
  simp only [List.mem_cons, List.not_mem_nil, or_false, not_or] at h
  obtain ⟨h1, h2, h3⟩ := h
  rw [trendingScore, if_neg h1, if_neg h2, if_neg h3]

/-- C1 (amended): both ranking endpoints round each score to 4 decimal
places when the entry is built — before the sort — and then sort descending
by the *rounded* score.  The output is non-increasing in the rounded score,
and every returned score is `round4` of the record's full-precision score;
the output need not be ordered by the full-precision scores. -/
theorem C1_amended_round_precedes_sort
    (m : JsMath) (alg limit timeframe minPoints alg2 timeframe2 limit2 : String)
    (now : ℚ) (records : List Child) :
    ((sortRespOk m alg limit timeframe minPoints now records).users.Pairwise
      (fun a b => b.2.score ≤ a.2.score)) ∧
    (∀ r e, (r, e) ∈ (sortRespOk m alg limit timeframe minPoints now records).users →
      ∃ c ∈ records, e.id = c.key ∧
        e.score = round4 (sortAlgoScore m alg c.val now)) ∧
    ((trendingResp m alg2 timeframe2 limit2 now records).trending.Pairwise
      (fun a b => b.2.trendScore ≤ a.2.trendScore)) ∧
    (∀ r e, (r, e) ∈ (trendingResp m alg2 timeframe2 limit2 now records).trending →
      ∃ c ∈ records, e.id = c.key ∧
        e.trendScore = round4 (trendingScore m alg2 (c.val.points.getD 0)
          (c.val.submissions.getD 0)
          (trendingAgeHours now (c.val.createdAt.getD 0)))) := by
  refine ⟨?_, ?_, ?_, ?_⟩
  · have h1 := pairwise_jsSort_scoreCmp SortEntry.score
      (sortUsersList m alg timeframe minPoints now records)
    have h2 := h1.sublist (jsSliceEnd_sublist
      (jsSort (scoreCmp SortEntry.score)
        (sortUsersList m alg timeframe minPoints now records)) (parseIntJS limit))
    exact pairwise_addRank h2
  · intro r e he
    obtain ⟨c, hc, _, heq⟩ := sortRespOk_mem_provenance he
    exact ⟨c, hc, by rw [heq]; rfl, by rw [heq]; rfl⟩
  · have h1 := pairwise_jsSort_scoreCmp TrendEntry.trendScore
      (trendingUsersList m alg2 timeframe2 now records)
    have h2 := h1.sublist (jsSliceEnd_sublist
      (jsSort (scoreCmp TrendEntry.trendScore)
        (trendingUsersList m alg2 timeframe2 now records))
      (some (parseIntOr limit2 10)))
    exact pairwise_addRank h2
  · intro r e he
    obtain ⟨c, hc, _, heq⟩ := trendingResp_mem_provenance he
    exact ⟨c, hc, by rw [heq]; rfl, by rw [heq]; rfl⟩

/-- Two long-dormant accounts whose full-precision `efficient` scores differ
(1/100000 vs 2/100000) but round to the same 4-decimal value `0`. -/
def cx1A : Child :=
  { key := "A"
    val := { username := some "ua", points := some 1,
             createdAt := some (-8640000000000) } }

def cx1B : Child :=
  { key := "B"
    val := { username := some "ub", points := some 2,
             createdAt := some (-8640000000000) } }

theorem cx1_keep (u : UserVal) (hu : u.isActive = none)
    (hp : ¬ u.points.getD 0 < 0) : sortKeep 0 "all" "0" u = true := by
  have hmp : parseIntJS "0" = some 0 := by decide
  rw [sortKeep, hmp]
  simp [hu, hp]

theorem cx1_scoreA :
    round4 (sortAlgoScore mathModel "efficient" cx1A.val 0) = 0 := by
  rw [sortAlgoScore_efficient]
  have : numOr cx1A.val.createdAt 0 = -8640000000000 := by
    norm_num [cx1A, numOr, numTruthy]
  rw [this]
  have hmax : max (1 : ℚ) ((0 - -8640000000000) / (1000 * 60 * 60 * 24)) = 100000 := by
    norm_num
  rw [show cx1A.val.points.getD 0 = 1 from rfl, hmax]
  rw [round4_eq (n := 0) (by norm_num) (by norm_num)]
  norm_num

theorem cx1_scoreB :
    round4 (sortAlgoScore mathModel "efficient" cx1B.val 0) = 0 := by
  rw [sortAlgoScore_efficient]
  have : numOr cx1B.val.createdAt 0 = -8640000000000 := by
    norm_num [cx1B, numOr, numTruthy]
  rw [this]
  have hmax : max (1 : ℚ) ((0 - -8640000000000) / (1000 * 60 * 60 * 24)) = 100000 := by
    norm_num
  rw [show cx1B.val.points.getD 0 = 2 from rfl, hmax]
  rw [round4_eq (n := 0) (by norm_num) (by norm_num)]
  norm_num

/-- Evaluation of the sort pipeline on the two dormant accounts: the rounded
scores tie, so the stable sort keeps snapshot order `A, B`. -/
theorem cx1_users_eval :
    (sortRespOk mathModel "efficient" "20" "all" "0" 0 [cx1A, cx1B]).users =
      [(1, mkSortEntry mathModel "efficient" 0 cx1A),
       (2, mkSortEntry mathModel "efficient" 0 cx1B)] := by
  have hA : sortKeep 0 "all" "0" cx1A.val = true :=
    cx1_keep _ rfl (by norm_num [cx1A])
  have hB : sortKeep 0 "all" "0" cx1B.val = true :=
    cx1_keep _ rfl (by norm_num [cx1B])
  have hlim : parseIntJS "20" = some 20 := by decide
  have hcmp : scoreCmp SortEntry.score (mkSortEntry mathModel "efficient" 0 cx1A)
      (mkSortEntry mathModel "efficient" 0 cx1B) ≤ 0 := by
    show (mkSortEntry mathModel "efficient" 0 cx1B).score -
      (mkSortEntry mathModel "efficient" 0 cx1A).score ≤ 0
    show round4 (sortAlgoScore mathModel "efficient" cx1B.val 0) -
      round4 (sortAlgoScore mathModel "efficient" cx1A.val 0) ≤ 0
    rw [cx1_scoreA, cx1_scoreB]
    norm_num
  simp only [sortRespOk, sortSorted, sortUsersList, List.filterMap, hA, hB,
    if_pos, hlim, jsSort, insertCmp, if_pos hcmp]
  norm_num [jsSliceEnd, addRank, addRankFrom]

/-- C1 counterexample: with algorithm `efficient` the endpoint returns `A`
before `B` although `B`'s full-precision score is strictly larger — the sort
uses the already-rounded scores (both `0.0000`), not full precision. -/
theorem C1_counterexample :
    ((sortRespOk mathModel "efficient" "20" "all" "0" 0 [cx1A, cx1B]).users.map
      (fun p => p.2.id)) = ["A", "B"] ∧
    sortAlgoScore mathModel "efficient" cx1A.val 0 <
      sortAlgoScore mathModel "efficient" cx1B.val 0 := by
  constructor
  · rw [cx1_users_eval]
    rfl
  · rw [sortAlgoScore_efficient, sortAlgoScore_efficient]
    have hA : numOr cx1A.val.createdAt 0 = -8640000000000 := by
      norm_num [cx1A, numOr, numTruthy]
    have hB : numOr cx1B.val.createdAt 0 = -8640000000000 := by
      norm_num [cx1B, numOr, numTruthy]
    rw [hA, hB, show cx1A.val.points.getD 0 = 1 from rfl,
      show cx1B.val.points.getD 0 = 2 from rfl]
    have hmax : max (1 : ℚ) ((0 - -8640000000000) / (1000 * 60 * 60 * 24)) = 100000 := by
      norm_num
    rw [hmax]
    norm_num

theorem C1_witness :
    ∃ c ∈ [cx1A, cx1B], (mkSortEntry mathModel "efficient" 0 cx1A).id = c.key ∧
      (mkSortEntry mathModel "efficient" 0 cx1A).score =
        round4 (sortAlgoScore mathModel "efficient" c.val 0) :=
  (C1_amended_round_precedes_sort mathModel "efficient" "20" "all" "0"
    "velocity" "24h" "10" 0 [cx1A, cx1B]).2.1 1
    (mkSortEntry mathModel "efficient" 0 cx1A)
    (by rw [cx1_users_eval]; exact List.mem_cons_self _ _)

/-- C2 (amended): only the sort endpoint validates the algorithm key —
an unknown key there yields HTTP 400 listing the available algorithms —
while the trending endpoint accepts any key, always answers `ok`, and
scores unknown keys with the simple points-per-hour fallback formula. -/
theorem C2_amended_only_sort_validates
    (m : JsMath) (alg limit timeframe minPoints tf2 lim2 : String)
    (now : ℚ) (records : List Child) (p s a : ℚ) :
    (alg ∉ sortAlgoKeys →
      sortHandler m alg limit timeframe minPoints now records =
        ApiResult.badRequest ("Invalid algorithm: " ++ alg) sortAlgoKeys) ∧
    (trendingHandler m alg tf2 lim2 now records =
      ApiResult.ok (trendingResp m alg tf2 lim2 now records)) ∧
    (alg ∉ (["hackernews", "reddit", "velocity"] : List String) →
      trendingScore m alg p s a = p / max 1 a) := by
  refine ⟨?_, rfl, trendingScore_fallback m alg p s a⟩
  intro h
  rw [sortHandler, if_neg h]

/-- An ordinary active record, 2 hours old, with 5 points. -/
def cx2Child : Child :=
  { key := "t"
    val := { username := some "u", points := some 5,
             createdAt := some (-7200000) } }

/-- C2 counterexample: with the unknown algorithm key `"foo"` the trending
endpoint does not fail with an InvalidAlgorithm 400 — it answers `ok` and
scores the record with the points-per-hour fallback (5 points / 2 h = 2.5). -/
theorem C2_counterexample :
    trendingHandler mathModel "foo" "24h" "10" 0 [cx2Child] =
      ApiResult.ok (trendingResp mathModel "foo" "24h" "10" 0 [cx2Child]) ∧
    (trendingResp mathModel "foo" "24h" "10" 0 [cx2Child]).trending.map
      (fun p => p.2.trendScore) = [5 / 2] ∧
    ("foo" : String) ∉ (["hackernews", "reddit", "velocity"] : List String) := by
  refine ⟨rfl, ?_, by decide⟩
  have ht := trendingThreshold_eq_default 0 "24h" (by decide)
  have hkeep : trendingKeep 0 "24h" cx2Child.val = true := by
    simp only [trendingKeep, cx2Child, Bool.and_eq_true, decide_eq_true_eq, ht]
    refine ⟨⟨⟨by decide, ?_⟩, by norm_num⟩, by decide⟩
    norm_num [numTruthy]
  have hp : parseIntOr "10" 10 = 10 := by decide
  have hscore : (mkTrendEntry mathModel "foo" 0 cx2Child).trendScore = 5 / 2 := by
    show round4 (trendingScore mathModel "foo" (cx2Child.val.points.getD 0)
      (cx2Child.val.submissions.getD 0)
      (trendingAgeHours 0 (cx2Child.val.createdAt.getD 0))) = 5 / 2
    rw [trendingScore_fallback mathModel "foo" _ _ _ (by decide)]
    have hage : trendingAgeHours 0 (cx2Child.val.createdAt.getD 0) = 2 := by
      norm_num [trendingAgeHours, cx2Child]
    rw [hage, show cx2Child.val.points.getD 0 = 5 from rfl]
    have hmax : max (1 : ℚ) 2 = 2 := by norm_num
    rw [hmax]
    rw [round4_eq (n := 25000) (by norm_num) (by norm_num)]
    norm_num
  simp only [trendingResp, trendingSorted, trendingUsersList, List.filterMap,
    hkeep, if_pos, jsSort, insertCmp, hp]
  simp only [jsSliceEnd]
  norm_num [addRank, addRankFrom, hscore]

theorem C2_witness :
    sortHandler mathModel "foo" "20" "all" "0" 0 [] =
      ApiResult.badRequest ("Invalid algorithm: " ++ "foo") sortAlgoKeys ∧
    trendingScore mathModel "foo" 5 0 2 = 5 / max 1 2 :=
  ⟨(C2_amended_only_sort_validates mathModel "foo" "20" "all" "0" "24h" "10"
      0 [] 5 0 2).1 (by decide),
   (C2_amended_only_sort_validates mathModel "foo" "20" "all" "0" "24h" "10"
      0 [] 5 0 2).2.2 (by decide)⟩

/-- C3 (amended): a record lacking `createdAt` is always dropped by the
trending endpoint, but the sort endpoint drops it only when
`timeframe ≠ 'all'`; with `timeframe = 'all'` the record is scored with
`createdAt` substituted by `now` (so, e.g., the `efficient` score degrades
to the raw points), not dropped and not an error. -/
theorem C3_amended_dropped_only_outside_all
    (m : JsMath) (alg timeframe limit alg2 limit2 timeframe2 minPoints : String)
    (now : ℚ) (records : List Child) (c : Child)
    (hids : (records.map Child.key).Nodup)
    (hc : c ∈ records) (hnone : c.val.createdAt = none)
    (htf : timeframe2 ≠ "all")
    (hact : c.val.isActive ≠ some false)
    (hp : ¬ c.val.points.getD 0 < 0) :
    (∀ r e, (r, e) ∈ (trendingResp m alg timeframe limit now records).trending →
      e.id ≠ c.key) ∧
    (∀ r e, (r, e) ∈
        (sortRespOk m alg2 limit2 timeframe2 minPoints now records).users →
      e.id ≠ c.key) ∧
    (mkSortEntry m alg2 now c ∈ sortUsersList m alg2 "all" "0" now records) ∧
    (sortAlgoScore m "efficient" c.val now = c.val.points.getD 0) := by
  refine ⟨?_, ?_, ?_, ?_⟩
  · intro r e he hid
    obtain ⟨d, hd, hkeep, heq⟩ := trendingResp_mem_provenance he
    rw [trendingKeep] at hkeep
    simp only [Bool.and_eq_true, decide_eq_true_eq] at hkeep
    have hdk : d.key = c.key := by rw [← hid, heq]; rfl
    have hdc : d = c := eq_of_key_eq_of_nodup hids hd hc hdk
    rw [hdc, hnone] at hkeep
    simpa [numTruthy] using hkeep.1.1.2
  · intro r e he hid
    obtain ⟨d, hd, hkeep, heq⟩ := sortRespOk_mem_provenance he
    rw [sortKeep] at hkeep
    simp only [Bool.and_eq_true, Bool.or_eq_true, decide_eq_true_eq] at hkeep
    have hdk : d.key = c.key := by rw [← hid, heq]; rfl
    have hdc : d = c := eq_of_key_eq_of_nodup hids hd hc hdk
    rcases hkeep.1.2 with htf2 | hcre
    · exact htf htf2
    · rw [hdc, hnone] at hcre
      simpa [numTruthy] using hcre.1
  · refine List.mem_filterMap.mpr ⟨c, hc, ?_⟩
    rw [if_pos]
    rw [sortKeep]
    have hmp : parseIntJS "0" = some 0 := by decide
    rw [hmp]
    simp [hact, hp]
  · rw [sortAlgoScore_efficient, hnone]
    have : numOr none now = now := by simp [numOr, numTruthy]
    rw [this]
    norm_num

/-- An active record with 7 points and no `createdAt` at all. -/
def cx3Child : Child :=
  { key := "x", val := { username := some "u", points := some 7 } }

/-- C3 counterexample: with `algorithm=efficient` and `timeframe=all` the
sort endpoint returns the record lacking `createdAt` — scored as 7 points
with substitute age 0 — instead of dropping it. -/
theorem C3_counterexample :
    (sortRespOk mathModel "efficient" "20" "all" "0" 0 [cx3Child]).users.map
      (fun p => (p.2.id, p.2.score)) = [("x", 7)] ∧
    cx3Child.val.createdAt = none := by
  refine ⟨?_, rfl⟩
  have hkeep : sortKeep 0 "all" "0" cx3Child.val = true :=
    cx1_keep _ rfl (by norm_num [cx3Child])
  have hlim : parseIntJS "20" = some 20 := by decide
  have hscore : (mkSortEntry mathModel "efficient" 0 cx3Child).score = 7 := by
    show round4 (sortAlgoScore mathModel "efficient" cx3Child.val 0) = 7
    rw [sortAlgoScore_efficient]
    have : numOr cx3Child.val.createdAt 0 = 0 := by
      simp [cx3Child, numOr, numTruthy]
    rw [this, show cx3Child.val.points.getD 0 = 7 from rfl]
    have hmax : max (1 : ℚ) ((0 - 0) / (1000 * 60 * 60 * 24)) = 1 := by norm_num
    rw [hmax]
    rw [round4_eq (n := 70000) (by norm_num) (by norm_num)]
    norm_num
  simp only [sortRespOk, sortSorted, sortUsersList, List.filterMap, hkeep,
    if_pos, hlim, jsSort, insertCmp]
  simp only [jsSliceEnd]
  norm_num [addRank, addRankFrom, hscore]
  rfl

theorem C3_witness :
    (∀ r e, (r, e) ∈ (trendingResp mathModel "velocity" "24h" "10" 0
        [cx3Child]).trending → e.id ≠ "x") ∧
    (∀ r e, (r, e) ∈ (sortRespOk mathModel "efficient" "20" "today" "0" 0
        [cx3Child]).users → e.id ≠ "x") ∧
    (mkSortEntry mathModel "efficient" 0 cx3Child ∈
      sortUsersList mathModel "efficient" "all" "0" 0 [cx3Child]) ∧
    (sortAlgoScore mathModel "efficient" cx3Child.val 0 =
      cx3Child.val.points.getD 0) :=
  C3_amended_dropped_only_outside_all mathModel "velocity" "24h" "10"
    "efficient" "20" "today" "0" 0 [cx3Child] cx3Child
    (by simp [cx3Child]) (List.mem_cons_self _ _) rfl (by decide) (by decide)
    (by norm_num [cx3Child])

/-- C4 (amended): the endpoints do not treat unrecognized timeframes as
`all`/no-cutoff.  The trending endpoint (and the `part_000` variant)
applies the default 24 h cutoff to every value outside its recognized
override keys — including `all`, `today`, `week` and `month`; the sort
endpoint applies a zero threshold to unrecognized non-`all` values but
still drops records lacking `createdAt` there, unlike a true `all`. -/
theorem C4_amended_unrecognized_timeframes
    (now : ℚ) (tf tf2 tf3 minPoints : String) (u : UserVal)
    (h1 : tf ∉ (["1h", "6h", "12h", "7d", "30d"] : List String))
    (h2 : tf2 ∉ (["today", "week", "month"] : List String))
    (h3 : tf3 ∉ (["1h", "6h", "12h", "24h", "7d", "30d"] : List String))
    (htfall : tf2 ≠ "all") (hnone : u.createdAt = none) :
    trendingThreshold now tf = now - 24 * 60 * 60 * 1000 ∧
    sortThreshold now tf2 = 0 ∧
    part000Threshold now tf3 = now - 24 * 60 * 60 * 1000 ∧
    sortKeep now tf2 minPoints u = false := by
  refine ⟨trendingThreshold_eq_default now tf h1,
    sortThreshold_eq_zero now tf2 h2,
    part000Threshold_eq_default now tf3 h3, ?_⟩
  rw [sortKeep]
  simp [hnone, numTruthy, htfall]

/-- An active record created 25 hours before the reference time. -/
def cx4Child : Child :=
  { key := "old"
    val := { username := some "u", points := some 1,
             createdAt := some (-90000000) } }

/-- C4 counterexample: a 25 h old record vanishes from the trending output
for the unrecognized timeframe `banana` — and even for the literal `all` —
because both hit the default 24 h cutoff, while `30d` keeps it; `all`
therefore does not mean "no cutoff" on this endpoint. -/
theorem C4_counterexample :
    (trendingResp mathModel "velocity" "banana" "10" 0 [cx4Child]).totalAnalyzed
      = 0 ∧
    (trendingResp mathModel "velocity" "all" "10" 0 [cx4Child]).totalAnalyzed
      = 0 ∧
    (trendingResp mathModel "velocity" "30d" "10" 0 [cx4Child]).totalAnalyzed
      = 1 := by
  refine ⟨?_, ?_, ?_⟩
  · have ht := trendingThreshold_eq_default 0 "banana" (by decide)
    have hkeep : trendingKeep 0 "banana" cx4Child.val = false := by
      rw [trendingKeep, ht]
      simp
      intro _ _ h
      norm_num [cx4Child] at h
    simp [trendingResp, trendingSorted, trendingUsersList, List.filterMap,
      hkeep, jsSort]
  · have ht := trendingThreshold_eq_default 0 "all" (by decide)
    have hkeep : trendingKeep 0 "all" cx4Child.val = false := by
      rw [trendingKeep, ht]
      simp
      intro _ _ h
      norm_num [cx4Child] at h
    simp [trendingResp, trendingSorted, trendingUsersList, List.filterMap,
      hkeep, jsSort]
  · have ht : trendingThreshold 0 "30d" = 0 - 30 * 24 * 60 * 60 * 1000 := by
      rw [trendingThreshold, if_neg (by decide), if_neg (by decide),
        if_neg (by decide), if_neg (by decide), if_pos rfl]
    have hkeep : trendingKeep 0 "30d" cx4Child.val = true := by
      simp only [trendingKeep, cx4Child, Bool.and_eq_true, decide_eq_true_eq, ht]
      refine ⟨⟨⟨by decide, ?_⟩, by norm_num⟩, by decide⟩
      norm_num [numTruthy]
    simp [trendingResp, trendingSorted, trendingUsersList, List.filterMap,
      hkeep, jsSort, length_insertCmp]

theorem C4_witness :
    trendingThreshold 0 "banana" = 0 - 24 * 60 * 60 * 1000 ∧
    sortThreshold 0 "banana" = 0 ∧
    part000Threshold 0 "banana" = 0 - 24 * 60 * 60 * 1000 ∧
    sortKeep 0 "banana" "0" cx3Child.val = false :=
  C4_amended_unrecognized_timeframes 0 "banana" "banana" "banana" "0"
    cx3Child.val (by decide) (by decide) (by decide) (by decide) rfl

/-- C5 (amended): the endpoints do not uniformly fall back to the default on
a malformed limit.  The trending endpoint and the `part_001` variant
substitute their defaults (10 and 20) for a non-numeric or zero limit but
pass a negative limit through, slicing entries off the end of the list; the
sort endpoint and the `part_000` variant use the raw `parseInt(limit)`, so a
non-numeric limit empties the result list entirely. -/
theorem C5_amended_limit_fallback
    (m : JsMath) (alg limit timeframe minPoints alg2 tf2 s1 s2 s3 : String)
    (now : ℚ) (records : List Child) (n : Int) (l : List TrendEntry) :
    (parseIntJS limit = none →
      (sortRespOk m alg limit timeframe minPoints now records).users = []) ∧
    (parseIntJS s1 = none →
      trendingResp m alg2 tf2 s1 now records =
        trendingResp m alg2 tf2 "10" now records) ∧
    (parseIntJS s2 = some 0 →
      trendingResp m alg2 tf2 s2 now records =
        trendingResp m alg2 tf2 "10" now records) ∧
    (parseIntJS s3 = some n → n < 0 →
      (trendingResp m alg2 tf2 s3 now records).trending.length =
        (trendingResp m alg2 tf2 s3 now records).totalAnalyzed - n.natAbs) ∧
    (parseIntJS limit = none →
      (part000Resp m alg2 tf2 limit now records).trending = []) ∧
    (parseIntJS s1 = none → part001LimitNum s1 = 20) ∧
    (parseIntJS s2 = some 0 → part001LimitNum s2 = 20) ∧
    (parseIntJS s3 = some n → n < 0 →
      part001LimitNum s3 = n ∧
      (jsSliceEnd l (some (part001LimitNum s3))).length =
        l.length - n.natAbs) := by
  have h10 : parseIntOr "10" 10 = 10 := by decide
  refine ⟨?_, ?_, ?_, ?_, ?_, ?_, ?_, ?_⟩
  · intro h
    simp only [sortRespOk, h, jsSliceEnd, addRank, addRankFrom]
  · intro h
    have hs : parseIntOr s1 10 = 10 := by rw [parseIntOr, h]
    simp only [trendingResp, hs, h10]
  · intro h
    have hs : parseIntOr s2 10 = 10 := by rw [parseIntOr, h]; rfl
    simp only [trendingResp, hs, h10]
  · intro h hneg
    have hs : parseIntOr s3 10 = n := by
      simp only [parseIntOr, h]
      rw [if_neg (by omega)]
    simp only [trendingResp, hs, jsSliceEnd, if_pos hneg, length_addRank,
      List.length_take]
    omega
  · intro h
    simp only [part000Resp, h, jsSliceEnd, addRank, addRankFrom]
  · intro h
    rw [part001LimitNum, parseIntOr, h]
  · intro h
    simp only [part001LimitNum, parseIntOr, h]
    rfl
  · intro h hneg
    have hs : part001LimitNum s3 = n := by
      simp only [part001LimitNum, parseIntOr, h]
      rw [if_neg (by omega)]
    refine ⟨hs, ?_⟩
    rw [hs]
    simp only [jsSliceEnd, if_pos hneg, List.length_take]
    omega

/-- C5 counterexample: with the malformed limit `abc` the sort endpoint and
the `part_000` variant return an empty list although one record matched;
with the negative limit `-1` the trending endpoint negatively slices away
its only entry; the `part_001` variant defaults `abc` to 20 but passes `-5`
through. -/
theorem C5_counterexample :
    (sortRespOk mathModel "top" "abc" "all" "0" 0 [cx2Child]).users = [] ∧
    (sortRespOk mathModel "top" "abc" "all" "0" 0 [cx2Child]).totalUsers = 1 ∧
    (trendingResp mathModel "velocity" "24h" "-1" 0 [cx2Child]).trending = [] ∧
    (trendingResp mathModel "velocity" "24h" "-1" 0 [cx2Child]).totalAnalyzed
      = 1 ∧
    (part000Resp mathModel "velocity" "24h" "abc" 0 [cx2Child]).trending = [] ∧
    (part000Resp mathModel "velocity" "24h" "abc" 0 [cx2Child]).totalAnalyzed
      = 1 ∧
    part001LimitNum "abc" = 20 ∧
    part001LimitNum "-5" = -5 := by
  have hkeep : sortKeep 0 "all" "0" cx2Child.val = true :=
    cx1_keep _ rfl (by norm_num [cx2Child])
  have habc : parseIntJS "abc" = none := by decide
  have ht := trendingThreshold_eq_default 0 "24h" (by decide)
  have htkeep : trendingKeep 0 "24h" cx2Child.val = true := by
    simp only [trendingKeep, cx2Child, Bool.and_eq_true, decide_eq_true_eq, ht]
    refine ⟨⟨⟨by decide, ?_⟩, by norm_num⟩, by decide⟩
    norm_num [numTruthy]
  have hneg : parseIntOr "-1" 10 = -1 := by decide
  have ht000 : part000Threshold 0 "24h" = 0 - 24 * 60 * 60 * 1000 := by
    simp only [part000Threshold]
    rw [if_neg (by decide), if_neg (by decide), if_neg (by decide)]
    norm_num [numOr, numTruthy]
  have hkeep000 : part000Keep 0 "24h" cx2Child.val = true := by
    simp only [part000Keep, cx2Child, Bool.and_eq_true, decide_eq_true_eq,
      ht000]
    refine ⟨⟨?_, by norm_num⟩, by decide⟩
    norm_num [numTruthy]
  refine ⟨?_, ?_, ?_, ?_, ?_, ?_, by decide, by decide⟩
  · simp only [sortRespOk, habc, jsSliceEnd, addRank, addRankFrom]
  · simp only [sortRespOk, sortSorted, sortUsersList, List.filterMap, hkeep,
      if_pos, jsSort, insertCmp, List.length_singleton]
  · simp only [trendingResp, trendingSorted, trendingUsersList,
      List.filterMap, htkeep, if_pos, jsSort, insertCmp, hneg]
    simp [jsSliceEnd, addRank, addRankFrom]
  · simp only [trendingResp, trendingSorted, trendingUsersList,
      List.filterMap, htkeep, if_pos, jsSort, insertCmp,
      List.length_singleton]
  · simp only [part000Resp, habc, jsSliceEnd, addRank, addRankFrom]
  · simp only [part000Resp, part000UsersList, List.filterMap, hkeep000,
      if_pos, jsSort, insertCmp, List.length_singleton]

theorem C5_witness :
    ((sortRespOk mathModel "top" "abc" "all" "0" 0 []).users = []) ∧
    (trendingResp mathModel "velocity" "24h" "abc" 0 [] =
      trendingResp mathModel "velocity" "24h" "10" 0 []) ∧
    (trendingResp mathModel "velocity" "24h" "0" 0 [] =
      trendingResp mathModel "velocity" "24h" "10" 0 []) ∧
    ((trendingResp mathModel "velocity" "24h" "-1" 0 []).trending.length =
      (trendingResp mathModel "velocity" "24h" "-1" 0 []).totalAnalyzed -
        (Int.natAbs (-1))) ∧
    ((part000Resp mathModel "velocity" "24h" "abc" 0 []).trending = []) ∧
    (part001LimitNum "abc" = 20) ∧
    (part001LimitNum "0" = 20) ∧
    (part001LimitNum "-1" = -1 ∧
      (jsSliceEnd ([] : List TrendEntry) (some (part001LimitNum "-1"))).length =
        ([] : List TrendEntry).length - (Int.natAbs (-1))) :=
  ⟨(C5_amended_limit_fallback mathModel "top" "abc" "all" "0" "velocity"
      "24h" "abc" "0" "-1" 0 [] (-1) []).1 (by decide),
   (C5_amended_limit_fallback mathModel "top" "abc" "all" "0" "velocity"
      "24h" "abc" "0" "-1" 0 [] (-1) []).2.1 (by decide),
   (C5_amended_limit_fallback mathModel "top" "abc" "all" "0" "velocity"
      "24h" "abc" "0" "-1" 0 [] (-1) []).2.2.1 (by decide),
   (C5_amended_limit_fallback mathModel "top" "abc" "all" "0" "velocity"
      "24h" "abc" "0" "-1" 0 [] (-1) []).2.2.2.1 (by decide) (by norm_num),
   (C5_amended_limit_fallback mathModel "top" "abc" "all" "0" "velocity"
      "24h" "abc" "0" "-1" 0 [] (-1) []).2.2.2.2.1 (by decide),
   (C5_amended_limit_fallback mathModel "top" "abc" "all" "0" "velocity"
      "24h" "abc" "0" "-1" 0 [] (-1) []).2.2.2.2.2.1 (by decide),
   (C5_amended_limit_fallback mathModel "top" "abc" "all" "0" "velocity"
      "24h" "abc" "0" "-1" 0 [] (-1) []).2.2.2.2.2.2.1 (by decide),
   (C5_amended_limit_fallback mathModel "top" "abc" "all" "0" "velocity"
      "24h" "abc" "0" "-1" 0 [] (-1) []).2.2.2.2.2.2.2 (by decide)
     (by norm_num)⟩

/-- Modelled from the spec: `age = max(now - createdAt, 0)` in hours — the
clamped age the specification prescribes for every age-based algorithm. -/
def specAgeHours (now createdAt : ℚ) : ℚ :=
  max ((now - createdAt) / (1000 * 60 * 60)) 0

/-- C6 (amended): the scoring code computes `ageInHours = (now - createdAt)
/ 3600000` with no clamping at 0.  For a future-dated record the `velocity`
(and simple fallback) formulas coincide with the spec's clamped version only
because their `max(1, age)` guard absorbs the negative age, while the
`reddit` formula genuinely diverges: its time term goes negative, giving a
strictly smaller score than the clamped age would. -/
theorem C6_amended_age_unclamped
    (m : JsMath) (p s now createdAt : ℚ) (hfut : now < createdAt) :
    (trendingScore m "velocity" p s (trendingAgeHours now createdAt) =
      trendingScore m "velocity" p s (specAgeHours now createdAt)) ∧
    (p / max 1 (trendingAgeHours now createdAt) =
      p / max 1 (specAgeHours now createdAt)) ∧
    (trendingScore m "reddit" p s (trendingAgeHours now createdAt) <
      trendingScore m "reddit" p s (specAgeHours now createdAt)) := by
  have hraw : trendingAgeHours now createdAt < 0 := by
    rw [trendingAgeHours]
    apply div_neg_of_neg_of_pos
    · linarith
    · norm_num
  have hspec : specAgeHours now createdAt = 0 := by
    rw [specAgeHours, max_eq_right]
    rw [trendingAgeHours] at hraw
    exact le_of_lt hraw
  have hm1 : max (1 : ℚ) (trendingAgeHours now createdAt) = 1 :=
    max_eq_left (by linarith)
  have hm2 : max (1 : ℚ) (specAgeHours now createdAt) = 1 := by
    rw [hspec]; norm_num
  refine ⟨?_, ?_, ?_⟩
  · rw [trendingScore_velocity, trendingScore_velocity, hm1, hm2]
  · rw [hm1, hm2]
  · rw [trendingScore_reddit, trendingScore_reddit, hspec]
    have hlt : trendingAgeHours now createdAt * 3600 / 45000 <
        (0 : ℚ) * 3600 / 45000 := by
      rw [div_lt_div_iff_of_pos_right (by norm_num : (0:ℚ) < 45000)]
      nlinarith [hraw]
    exact add_lt_add_left hlt _

/-- A future-dated record: `createdAt` is one hour after the shared `now`. -/
def cx6Child : Child :=
  { key := "f"
    val := { username := some "u", points := some 1,
             createdAt := some 3600000 } }

/-- C6 counterexample: the trending endpoint returns the future-dated
record with the negative reddit score `-0.08` (age `-1` h), whereas the
claimed clamped age `max(now - createdAt, 0) = 0` would give score `0`
(`Math.log10(1) = 0` exactly, matching the model). -/
theorem C6_counterexample :
    (trendingResp mathModel "reddit" "24h" "10" 0 [cx6Child]).trending.map
      (fun p => p.2.trendScore) = [-(2 / 25)] ∧
    trendingScore mathModel "reddit" 1 0 (specAgeHours 0 3600000) = 0 := by
  constructor
  · have ht := trendingThreshold_eq_default 0 "24h" (by decide)
    have hkeep : trendingKeep 0 "24h" cx6Child.val = true := by
      simp only [trendingKeep, cx6Child, Bool.and_eq_true, decide_eq_true_eq, ht]
      refine ⟨⟨⟨by decide, ?_⟩, by norm_num⟩, by decide⟩
      norm_num [numTruthy]
    have hp : parseIntOr "10" 10 = 10 := by decide
    have hscore : (mkTrendEntry mathModel "reddit" 0 cx6Child).trendScore =
        -(2 / 25) := by
      show round4 (trendingScore mathModel "reddit"
        (cx6Child.val.points.getD 0) (cx6Child.val.submissions.getD 0)
        (trendingAgeHours 0 (cx6Child.val.createdAt.getD 0))) = -(2 / 25)
      rw [trendingScore_reddit]
      have hage : trendingAgeHours 0 (cx6Child.val.createdAt.getD 0) = -1 := by
        norm_num [trendingAgeHours, cx6Child]
      rw [hage, show cx6Child.val.points.getD 0 = 1 from rfl]
      have hval : (if (1 : ℚ) > 0 then (1 : ℚ) else -1) *
          mathModel.log10 (max |(1 : ℚ)| 1) + (-1 : ℚ) * 3600 / 45000 =
          -(2 / 25) := by
        norm_num [mathModel]
      rw [hval]
      rw [round4_eq (n := -800) (by norm_num) (by norm_num)]
      norm_num
    simp only [trendingResp, trendingSorted, trendingUsersList,
      List.filterMap, hkeep, if_pos, jsSort, insertCmp, hp]
    simp only [jsSliceEnd]
    norm_num [addRank, addRankFrom, hscore]
  · rw [trendingScore_reddit]
    have hspec : specAgeHours 0 3600000 = 0 := by
      rw [specAgeHours, max_eq_right]
      norm_num
    rw [hspec]
    norm_num [mathModel]

theorem C6_witness :
    (trendingScore mathModel "velocity" 1 0 (trendingAgeHours 0 3600000) =
      trendingScore mathModel "velocity" 1 0 (specAgeHours 0 3600000)) ∧
    ((1 : ℚ) / max 1 (trendingAgeHours 0 3600000) =
      1 / max 1 (specAgeHours 0 3600000)) ∧
    (trendingScore mathModel "reddit" 1 0 (trendingAgeHours 0 3600000) <
      trendingScore mathModel "reddit" 1 0 (specAgeHours 0 3600000)) :=
  C6_amended_age_unclamped mathModel 1 0 0 3600000 (by norm_num)
